import Mathlib

/-!
Verification of the vsh transport core: the length-prefixed message framer
(`VshWire`, `VshAsyncRead`, `VshAsyncWrite` from vsh_wire.rs) and the
non-blocking stream adapters (`UnixStream` from async_core/unix.rs and
`VsockStream` from async_core/vsock.rs).

Modelling conventions:
- Bytes are `Nat` values; the reliable ordered byte stream backing a socket is
  a `List Nat` of bytes still to be read (`input`) plus a `List Nat` of bytes
  written so far (`output`).
- A Rust `Vec<u8>` is a pair of its contents and its capacity (`RVec`);
  `vec![0u8; n]` has contents `replicate n 0` and capacity `n`,
  `Vec::with_capacity(n)` has empty contents and capacity `n`; appending past
  the capacity reallocates (amortized doubling), appending within it does not.
- The external protobuf schema collaborator is an abstract `Schema` record
  with `write_to_vec`-style serialization (`writeBytes`, producing the bytes
  appended to the transmit buffer) and `merge_from_bytes`-style parsing
  (`mergeFromBytes`, taking the prior message value and returning the merged
  one), each fallible.
- `read_exact` over a blocking-capable descriptor consumes exactly the
  requested bytes from the stream when they are available and otherwise fails
  with an unexpected-eof transport error; `write_all` appends to the output.
- The poll-style adapter methods are functions of the adapter value and of
  environment oracles: the outcome of the underlying non-blocking
  `read`/`write` syscall and the outcome of Reactor waker registration
  (`add_read_waker`/`add_write_waker`).
-/

/-- MAX_FRAME_SIZE: `VSH_BUF_SIZE` in vsh_wire.rs. -/
def VSH_BUF_SIZE : Nat := 4096

/-- Model of a Rust `Vec<u8>`: contents plus capacity. -/
structure RVec where
  data : List Nat
  cap : Nat
deriving Repr, DecidableEq

/-- `Vec::truncate(0)`: clears the contents, keeps the capacity. -/
def RVec.truncate0 (v : RVec) : RVec := ⟨[], v.cap⟩

/-- Rust's amortized growth when an append needs more than the capacity. -/
def growCap (cap needed : Nat) : Nat := max needed (2 * cap)

/-- Appending bytes to a `Vec<u8>`: reallocation happens only when the new
length exceeds the capacity. -/
def RVec.appendBytes (v : RVec) (bs : List Nat) : RVec :=
  ⟨v.data ++ bs,
   if v.data.length + bs.length ≤ v.cap then v.cap
   else growCap v.cap (v.data.length + bs.length)⟩

/-- The `std::io::ErrorKind` values the code distinguishes. -/
inductive IoErrorKind where
  | invalidData
  | unexpectedEof
  | wouldBlock
  | other
deriving Repr, DecidableEq

/-- A `std::io::Error`: a kind plus a message. -/
structure IoError where
  kind : IoErrorKind
  msg : String
deriving Repr, DecidableEq

/-- The error built at vsh_wire.rs line 71/139 for an oversized frame header. -/
def invalidFrameSizeError : IoError := ⟨.invalidData, "invalid vsh frame size"⟩

/-- The error `read_exact` produces when the stream ends before the buffer is
filled. -/
def unexpectedEofError : IoError := ⟨.unexpectedEof, "failed to fill whole buffer"⟩

/-- `VshWireError` from vsh_wire.rs, generic over the protobuf error type. -/
inductive VshWireError (E : Type) where
  | DeserializeProto (e : E)
  | MessageTooBig (s : Nat)
  | ReceiveMessage (e : IoError)
  | SendMessage (e : IoError)
  | SerializeProto (e : E)
deriving Repr, DecidableEq

/-- The external message-schema collaborator (`protobuf::Message`):
`writeBytes` is the byte sequence `write_to_vec` appends on success, and
`mergeFromBytes` merges parsed bytes into a prior message value. -/
structure Schema (E M : Type) where
  writeBytes : M → Except E (List Nat)
  mergeFromBytes : M → List Nat → Except E M

/-- `u32::from_le_bytes` on a 4-byte list. -/
def u32FromLeBytes (bs : List Nat) : Nat :=
  match bs with
  | [b0, b1, b2, b3] => b0 + 256 * b1 + 65536 * b2 + 16777216 * b3
  | _ => 0

/-- `u32::to_le_bytes` (the `as u32` cast truncates to 32 bits). -/
def u32ToLeBytes (n : Nat) : List Nat :=
  [n % 256, n / 256 % 256, n / 65536 % 256, n / 16777216 % 256]

/-- State of a `VshWire<T>` framer together with its socket `T`: bytes still
readable from the socket, bytes written to it so far, and the two buffers. -/
structure WireState where
  input : List Nat
  output : List Nat
  rx_buf : RVec
  tx_buf : RVec
deriving Repr, DecidableEq

/-- `VshWire::new`: rx_buf is `vec![0u8; VSH_BUF_SIZE]`, tx_buf is
`Vec::with_capacity(VSH_BUF_SIZE)`. -/
def VshWire.new (input : List Nat) : WireState :=
  ⟨input, [], ⟨List.replicate VSH_BUF_SIZE 0, VSH_BUF_SIZE⟩, ⟨[], VSH_BUF_SIZE⟩⟩

/-- `read_exact` on the blocking socket: consumes exactly `n` bytes when
available, fails with unexpected-eof otherwise. -/
def readExact (s : WireState) (n : Nat) : Except IoError (List Nat) × WireState :=
  if n ≤ s.input.length then
    (.ok (s.input.take n), { s with input := s.input.drop n })
  else
    (.error unexpectedEofError, s)

/-- `write_all` on the socket: appends the bytes to the output stream. -/
def writeAll (s : WireState) (bs : List Nat) : Except IoError Unit × WireState :=
  (.ok (), { s with output := s.output ++ bs })

/-- `VshWire::receive_frame` (vsh_wire.rs lines 63-77): read the 4-byte
little-endian header, reject lengths over `VSH_BUF_SIZE` before reading any
payload, otherwise read exactly that many bytes into `rx_buf[..frame_len]`. -/
def VshWire.receive_frame (s : WireState) : Except IoError Nat × WireState :=
  match readExact s 4 with
  | (.error e, s1) => (.error e, s1)
  | (.ok frame_len_bytes, s1) =>
    let frame_len := u32FromLeBytes frame_len_bytes
    if frame_len > VSH_BUF_SIZE then
      (.error invalidFrameSizeError, s1)
    else
      match readExact s1 frame_len with
      | (.error e, s2) => (.error e, s2)
      | (.ok payload, s2) =>
        (.ok frame_len,
         { s2 with rx_buf := ⟨payload ++ s2.rx_buf.data.drop frame_len, s2.rx_buf.cap⟩ })

/-- `VshWire::send_frame` (vsh_wire.rs lines 79-89): write the 4-byte
little-endian header, then the first `frame_len` bytes of `tx_buf`. -/
def VshWire.send_frame (s : WireState) (frame_len : Nat) : Except IoError Unit × WireState :=
  let frame_len_bytes := u32ToLeBytes frame_len
  match writeAll s frame_len_bytes with
  | (.error e, s1) => (.error e, s1)
  | (.ok _, s1) =>
    let frame_len2 := u32FromLeBytes frame_len_bytes
    writeAll s1 (s1.tx_buf.data.take frame_len2)

/-- `VshWire::receive_message` (vsh_wire.rs lines 91-95): receive a frame and
merge its payload bytes into the caller-supplied message. -/
def VshWire.receive_message {E M : Type} (sch : Schema E M) (s : WireState) (msg : M) :
    Except (VshWireError E) M × WireState :=
  match VshWire.receive_frame s with
  | (.error e, s1) => (.error (.ReceiveMessage e), s1)
  | (.ok frame_len, s1) =>
    match sch.mergeFromBytes msg (s1.rx_buf.data.take frame_len) with
    | .error e => (.error (.DeserializeProto e), s1)
    | .ok m => (.ok m, s1)

/-- `VshWire::send_message` (vsh_wire.rs lines 97-108): truncate the transmit
buffer, serialize into it, reject lengths over `VSH_BUF_SIZE` before writing,
otherwise send the frame. -/
def VshWire.send_message {E M : Type} (sch : Schema E M) (s : WireState) (msg : M) :
    Except (VshWireError E) Unit × WireState :=
  let s0 := { s with tx_buf := s.tx_buf.truncate0 }
  match sch.writeBytes msg with
  | .error e => (.error (.SerializeProto e), s0)
  | .ok bs =>
    let s1 := { s0 with tx_buf := s0.tx_buf.appendBytes bs }
    let frame_len := s1.tx_buf.data.length
    if frame_len > VSH_BUF_SIZE then
      (.error (.MessageTooBig frame_len), s1)
    else
      match VshWire.send_frame s1 frame_len with
      | (.error e, s2) => (.error (.SendMessage e), s2)
      | (.ok _, s2) => (.ok (), s2)

/-- State of a `VshAsyncRead<T>` framer: bytes the underlying stream delivers
(in order) and the receive buffer. -/
structure AsyncReadState where
  input : List Nat
  rx_buf : RVec
deriving Repr, DecidableEq

/-- State of a `VshAsyncWrite<T>` framer: bytes written so far and the
transmit buffer. -/
structure AsyncWriteState where
  output : List Nat
  tx_buf : RVec
deriving Repr, DecidableEq

/-- `VshAsyncRead::new`: rx_buf is `vec![0u8; VSH_BUF_SIZE]`. -/
def VshAsyncRead.new (input : List Nat) : AsyncReadState :=
  ⟨input, ⟨List.replicate VSH_BUF_SIZE 0, VSH_BUF_SIZE⟩⟩

/-- `VshAsyncWrite::new`: tx_buf is `vec![0u8; VSH_BUF_SIZE]` (length 4096,
not empty). -/
def VshAsyncWrite.new : AsyncWriteState :=
  ⟨[], ⟨List.replicate VSH_BUF_SIZE 0, VSH_BUF_SIZE⟩⟩

/-- Awaited `read_exact` over the delivered byte sequence: consumes exactly
`n` bytes when the stream delivers them, fails with unexpected-eof at end of
stream. -/
def readExactAsync (s : AsyncReadState) (n : Nat) :
    Except IoError (List Nat) × AsyncReadState :=
  if n ≤ s.input.length then
    (.ok (s.input.take n), { s with input := s.input.drop n })
  else
    (.error unexpectedEofError, s)

/-- Awaited `write_all`: appends the bytes to the output stream. -/
def writeAllAsync (s : AsyncWriteState) (bs : List Nat) :
    Except IoError Unit × AsyncWriteState :=
  (.ok (), { s with output := s.output ++ bs })

/-- `VshAsyncRead::receive_frame` (vsh_wire.rs lines 131-145). -/
def VshAsyncRead.receive_frame (s : AsyncReadState) : Except IoError Nat × AsyncReadState :=
  match readExactAsync s 4 with
  | (.error e, s1) => (.error e, s1)
  | (.ok frame_len_bytes, s1) =>
    let frame_len := u32FromLeBytes frame_len_bytes
    if frame_len > VSH_BUF_SIZE then
      (.error invalidFrameSizeError, s1)
    else
      match readExactAsync s1 frame_len with
      | (.error e, s2) => (.error e, s2)
      | (.ok payload, s2) =>
        (.ok frame_len,
         { s2 with rx_buf := ⟨payload ++ s2.rx_buf.data.drop frame_len, s2.rx_buf.cap⟩ })

/-- `VshAsyncRead::receive_message` (vsh_wire.rs lines 147-151). -/
def VshAsyncRead.receive_message {E M : Type} (sch : Schema E M) (s : AsyncReadState)
    (msg : M) : Except (VshWireError E) M × AsyncReadState :=
  match VshAsyncRead.receive_frame s with
  | (.error e, s1) => (.error (.ReceiveMessage e), s1)
  | (.ok frame_len, s1) =>
    match sch.mergeFromBytes msg (s1.rx_buf.data.take frame_len) with
    | .error e => (.error (.DeserializeProto e), s1)
    | .ok m => (.ok m, s1)

/-- `VshAsyncWrite::send_frame` (vsh_wire.rs lines 167-177). -/
def VshAsyncWrite.send_frame (s : AsyncWriteState) (frame_len : Nat) :
    Except IoError Unit × AsyncWriteState :=
  let frame_len_bytes := u32ToLeBytes frame_len
  match writeAllAsync s frame_len_bytes with
  | (.error e, s1) => (.error e, s1)
  | (.ok _, s1) =>
    let frame_len2 := u32FromLeBytes frame_len_bytes
    writeAllAsync s1 (s1.tx_buf.data.take frame_len2)

/-- `VshAsyncWrite::send_message` (vsh_wire.rs lines 179-190). -/
def VshAsyncWrite.send_message {E M : Type} (sch : Schema E M) (s : AsyncWriteState)
    (msg : M) : Except (VshWireError E) Unit × AsyncWriteState :=
  let s0 := { s with tx_buf := s.tx_buf.truncate0 }
  match sch.writeBytes msg with
  | .error e => (.error (.SerializeProto e), s0)
  | .ok bs =>
    let s1 := { s0 with tx_buf := s0.tx_buf.appendBytes bs }
    let frame_len := s1.tx_buf.data.length
    if frame_len > VSH_BUF_SIZE then
      (.error (.MessageTooBig frame_len), s1)
    else
      match VshAsyncWrite.send_frame s1 frame_len with
      | (.error e, s2) => (.error (.SendMessage e), s2)
      | (.ok _, s2) => (.ok (), s2)

/-- `std::task::Poll`. -/
inductive Poll (α : Type) where
  | Ready (a : α)
  | Pending
deriving Repr, DecidableEq

/-- A raw connected Unix-domain stream socket (`std::os::unix::net::UnixStream`):
its non-blocking flag and whether its descriptor is still open. -/
structure RawUnixStream where
  nonblocking : Bool
  fdOpen : Bool
deriving Repr, DecidableEq

/-- The adapter `UnixStream` from async_core/unix.rs, wrapping the raw socket. -/
structure UnixStream where
  inner : RawUnixStream
deriving Repr, DecidableEq

/-- `async_core::unix::Error`. -/
inductive UnixError where
  | SetNonblocking (e : IoError)
deriving Repr, DecidableEq

/-- `TryFrom<net::UnixStream> for UnixStream` (async_core/unix.rs lines 46-55):
`setRes` is the outcome of `set_nonblocking(true)`; on success the wrapped
socket is in non-blocking mode, on failure no adapter is produced. -/
def UnixStream.try_from (raw : RawUnixStream) (setRes : Except IoError Unit) :
    Except UnixError UnixStream :=
  match setRes with
  | .error e => .error (.SetNonblocking e)
  | .ok _ => .ok ⟨{ raw with nonblocking := true }⟩

/-- The error built at async_core/unix.rs line 68 / vsock.rs line 69. -/
def readWakerError : IoError := ⟨.other, "failed to add read waker"⟩

/-- The error built at async_core/unix.rs line 92 / vsock.rs line 93. -/
def writeWakerError : IoError := ⟨.other, "failed to add write waker"⟩

instance exceptDecEq {ε α : Type} [DecidableEq ε] [DecidableEq α] :
    DecidableEq (Except ε α)
  | .error a, .error b =>
    if h : a = b then .isTrue (by simp [h]) else .isFalse (by simp [h])
  | .error _, .ok _ => .isFalse (by simp)
  | .ok _, .error _ => .isFalse (by simp)
  | .ok a, .ok b =>
    if h : a = b then .isTrue (by simp [h]) else .isFalse (by simp [h])

/-- Outcome of one poll attempt: the `Poll` value returned and whether a waker
was registered with the Reactor. -/
structure PollOutcome where
  result : Poll (Except IoError Nat)
  wakerRegistered : Bool
deriving Repr, DecidableEq

/-- `UnixStream::poll_read` (async_core/unix.rs lines 57-75): `readRes` is the
outcome of the non-blocking `inner.read(buf)` syscall, `regRes` the outcome of
`add_read_waker`. -/
def UnixStream.poll_read (st : UnixStream) (readRes : Except IoError Nat)
    (regRes : Except Unit Unit) : PollOutcome × UnixStream :=
  match readRes with
  | .ok n => (⟨.Ready (.ok n), false⟩, st)
  | .error e =>
    if e.kind = IoErrorKind.wouldBlock then
      match regRes with
      | .ok _ => (⟨.Pending, true⟩, st)
      | .error _ => (⟨.Ready (.error readWakerError), false⟩, st)
    else (⟨.Ready (.error e), false⟩, st)

/-- `UnixStream::poll_write` (async_core/unix.rs lines 77-98). -/
def UnixStream.poll_write (st : UnixStream) (writeRes : Except IoError Nat)
    (regRes : Except Unit Unit) : PollOutcome × UnixStream :=
  match writeRes with
  | .ok n => (⟨.Ready (.ok n), false⟩, st)
  | .error e =>
    if e.kind = IoErrorKind.wouldBlock then
      match regRes with
      | .ok _ => (⟨.Pending, true⟩, st)
      | .error _ => (⟨.Ready (.error writeWakerError), false⟩, st)
    else (⟨.Ready (.error e), false⟩, st)

/-- `UnixStream::poll_flush` (async_core/unix.rs lines 100-103): always ready
with success, state untouched. -/
def UnixStream.poll_flush (st : UnixStream) : Poll (Except IoError Unit) × UnixStream :=
  (.Ready (.ok ()), st)

/-- `UnixStream::poll_close` (async_core/unix.rs lines 105-108): delegates to
`poll_flush`; the descriptor is released on drop, not here. -/
def UnixStream.poll_close (st : UnixStream) : Poll (Except IoError Unit) × UnixStream :=
  UnixStream.poll_flush st

/-- A raw connected VSOCK stream socket (`libchromeos::vsock::VsockStream`). -/
structure RawVsockStream where
  nonblocking : Bool
  fdOpen : Bool
deriving Repr, DecidableEq

/-- The adapter `VsockStream` from async_core/vsock.rs. -/
structure VsockStream where
  inner : RawVsockStream
deriving Repr, DecidableEq

/-- `async_core::vsock::Error`. -/
inductive VsockError where
  | SetNonblocking (e : IoError)
deriving Repr, DecidableEq

/-- `TryFrom<vsock::VsockStream> for VsockStream` (async_core/vsock.rs lines
47-56). -/
def VsockStream.try_from (raw : RawVsockStream) (setRes : Except IoError Unit) :
    Except VsockError VsockStream :=
  match setRes with
  | .error e => .error (.SetNonblocking e)
  | .ok _ => .ok ⟨{ raw with nonblocking := true }⟩

/-- `VsockStream::poll_read` (async_core/vsock.rs lines 58-76). -/
def VsockStream.poll_read (st : VsockStream) (readRes : Except IoError Nat)
    (regRes : Except Unit Unit) : PollOutcome × VsockStream :=
  match readRes with
  | .ok n => (⟨.Ready (.ok n), false⟩, st)
  | .error e =>
    if e.kind = IoErrorKind.wouldBlock then
      match regRes with
      | .ok _ => (⟨.Pending, true⟩, st)
      | .error _ => (⟨.Ready (.error readWakerError), false⟩, st)
    else (⟨.Ready (.error e), false⟩, st)

/-- `VsockStream::poll_write` (async_core/vsock.rs lines 78-99). -/
def VsockStream.poll_write (st : VsockStream) (writeRes : Except IoError Nat)
    (regRes : Except Unit Unit) : PollOutcome × VsockStream :=
  match writeRes with
  | .ok n => (⟨.Ready (.ok n), false⟩, st)
  | .error e =>
    if e.kind = IoErrorKind.wouldBlock then
      match regRes with
      | .ok _ => (⟨.Pending, true⟩, st)
      | .error _ => (⟨.Ready (.error writeWakerError), false⟩, st)
    else (⟨.Ready (.error e), false⟩, st)

/-- `VsockStream::poll_flush` (async_core/vsock.rs lines 101-104). -/
def VsockStream.poll_flush (st : VsockStream) : Poll (Except IoError Unit) × VsockStream :=
  (.Ready (.ok ()), st)

/-- `VsockStream::poll_close` (async_core/vsock.rs lines 106-109). -/
def VsockStream.poll_close (st : VsockStream) : Poll (Except IoError Unit) × VsockStream :=
  VsockStream.poll_flush st

theorem u32_le_roundtrip (n : Nat) (h : n < 4294967296) :
    u32FromLeBytes (u32ToLeBytes n) = n := by
  simp only [u32ToLeBytes, u32FromLeBytes]
  omega

theorem u32ToLeBytes_length (n : Nat) : (u32ToLeBytes n).length = 4 := rfl

theorem send_message_ok_eq {E M : Type} (sch : Schema E M) (s : WireState) (msg : M)
    (bs : List Nat) (hw : sch.writeBytes msg = Except.ok bs)
    (hlen : bs.length ≤ VSH_BUF_SIZE) :
    VshWire.send_message sch s msg =
      (Except.ok (),
       { input := s.input,
         output := s.output ++ u32ToLeBytes bs.length ++ bs,
         rx_buf := s.rx_buf,
         tx_buf := ⟨bs, if bs.length ≤ s.tx_buf.cap then s.tx_buf.cap
                        else growCap s.tx_buf.cap bs.length⟩ }) := by
  have hnot : ¬ bs.length > VSH_BUF_SIZE := by omega
  have hround : u32FromLeBytes (u32ToLeBytes bs.length) = bs.length :=
    u32_le_roundtrip _ (by unfold VSH_BUF_SIZE at hlen; omega)
  simp [VshWire.send_message, hw, VshWire.send_frame, writeAll, hround,
        RVec.truncate0, RVec.appendBytes, hnot, List.take_length]

theorem receive_frame_ok_eq (r : WireState) (bs rest : List Nat)
    (hin : r.input = u32ToLeBytes bs.length ++ (bs ++ rest))
    (hlen : bs.length ≤ VSH_BUF_SIZE) :
    VshWire.receive_frame r =
      (Except.ok bs.length,
       { r with input := rest,
                rx_buf := ⟨bs ++ r.rx_buf.data.drop bs.length, r.rx_buf.cap⟩ }) := by
  have hround : u32FromLeBytes (u32ToLeBytes bs.length) = bs.length :=
    u32_le_roundtrip _ (by unfold VSH_BUF_SIZE at hlen; omega)
  have hnot : ¬ bs.length > VSH_BUF_SIZE := by omega
  have hhdr : (u32ToLeBytes bs.length).length = 4 := rfl
  have htake4 : r.input.take 4 = u32ToLeBytes bs.length := by
    rw [hin, ← hhdr, List.take_left]
  have hdrop4 : r.input.drop 4 = bs ++ rest := by
    rw [hin, ← hhdr, List.drop_left]
  have hlen4 : 4 ≤ r.input.length := by
    rw [hin]; simp [hhdr]
  have htakebs : (bs ++ rest).take bs.length = bs := List.take_left bs rest
  have hdropbs : (bs ++ rest).drop bs.length = rest := List.drop_left bs rest
  simp [VshWire.receive_frame, readExact, hlen4, htake4, hdrop4, hround, hnot,
        htakebs, hdropbs]

theorem receive_message_ok_eq {E M : Type} (sch : Schema E M) (r : WireState) (msg m : M)
    (bs rest : List Nat)
    (hin : r.input = u32ToLeBytes bs.length ++ (bs ++ rest))
    (hlen : bs.length ≤ VSH_BUF_SIZE)
    (hm : sch.mergeFromBytes msg bs = Except.ok m) :
    VshWire.receive_message sch r msg =
      (Except.ok m,
       { r with input := rest,
                rx_buf := ⟨bs ++ r.rx_buf.data.drop bs.length, r.rx_buf.cap⟩ }) := by
  have hframe := receive_frame_ok_eq r bs rest hin hlen
  have htakebs : (bs ++ r.rx_buf.data.drop bs.length).take bs.length = bs :=
    List.take_left bs _
  simp [VshWire.receive_message, hframe, htakebs, hm]

/-- C1: for every message whose serialized form fits in 4096 bytes and whose
schema serialization round-trips against a fresh output message,
`send_message` on one endpoint followed by `receive_message` on the peer
(reading exactly the bytes the sender wrote) succeeds and yields the original
message. -/
theorem C1_roundtrip {E M : Type} (sch : Schema E M) (msg fresh : M) (bs : List Nat)
    (hw : sch.writeBytes msg = Except.ok bs)
    (hlen : bs.length ≤ VSH_BUF_SIZE)
    (hm : sch.mergeFromBytes fresh bs = Except.ok msg) :
    (VshWire.send_message sch (VshWire.new []) msg).1 = Except.ok () ∧
    (VshWire.receive_message sch
       (VshWire.new (VshWire.send_message sch (VshWire.new []) msg).2.output)
       fresh).1 = Except.ok msg := by
  have hsend := send_message_ok_eq sch (VshWire.new []) msg bs hw hlen
  constructor
  · rw [hsend]
  · rw [hsend]
    have hin : (VshWire.new (u32ToLeBytes bs.length ++ bs)).input
        = u32ToLeBytes bs.length ++ (bs ++ []) := by
      simp [VshWire.new]
    have hrecv := receive_message_ok_eq sch
      (VshWire.new (u32ToLeBytes bs.length ++ bs)) fresh msg bs [] hin hlen hm
    simp only [VshWire.new, List.nil_append] at hrecv ⊢
    rw [hrecv]

/-- A concrete schema used in witnesses: a message is a raw byte list, its
serialization is itself, and parsing appends the payload to the prior value,
so merging into the empty message recovers the payload. -/
def listSchema : Schema Unit (List Nat) :=
  ⟨fun m => Except.ok m, fun msg bs => Except.ok (msg ++ bs)⟩

theorem C1_roundtrip_witness :
    (VshWire.send_message listSchema (VshWire.new []) [1, 2, 3]).1 = Except.ok () ∧
    (VshWire.receive_message listSchema
       (VshWire.new (VshWire.send_message listSchema (VshWire.new []) [1, 2, 3]).2.output)
       []).1 = Except.ok [1, 2, 3] :=
  C1_roundtrip listSchema [1, 2, 3] [] [1, 2, 3] rfl (by decide) rfl

/-- C3: a message whose serialized form exceeds 4096 bytes makes
`send_message` fail with `MessageTooBig` carrying the serialized length, with
no byte written to the transport and the transport state unchanged. -/
theorem C3_oversize_send_rejected {E M : Type} (sch : Schema E M) (s : WireState)
    (msg : M) (bs : List Nat) (hw : sch.writeBytes msg = Except.ok bs)
    (hbig : bs.length > VSH_BUF_SIZE) :
    (VshWire.send_message sch s msg).1 = Except.error (.MessageTooBig bs.length) ∧
    (VshWire.send_message sch s msg).2.output = s.output ∧
    (VshWire.send_message sch s msg).2.input = s.input := by
  simp [VshWire.send_message, hw, RVec.truncate0, RVec.appendBytes, hbig]

theorem C3_oversize_send_rejected_witness :
    (VshWire.send_message listSchema (VshWire.new []) (List.replicate 4097 0)).1
      = Except.error (.MessageTooBig (List.replicate 4097 (0 : Nat)).length) ∧
    (VshWire.send_message listSchema (VshWire.new []) (List.replicate 4097 0)).2.output
      = (VshWire.new []).output ∧
    (VshWire.send_message listSchema (VshWire.new []) (List.replicate 4097 0)).2.input
      = (VshWire.new []).input :=
  C3_oversize_send_rejected listSchema (VshWire.new []) (List.replicate 4097 0)
    (List.replicate 4097 0) rfl (by rw [List.length_replicate]; unfold VSH_BUF_SIZE; omega)

/-- C4: a successful `send_message` of a message serializing to `L ≤ 4096`
bytes appends to the transport exactly the 4-byte little-endian encoding of
`L` followed by the `L` payload bytes. -/
theorem C4_send_wire_format {E M : Type} (sch : Schema E M) (s : WireState) (msg : M)
    (bs : List Nat) (hw : sch.writeBytes msg = Except.ok bs)
    (hlen : bs.length ≤ VSH_BUF_SIZE) :
    (VshWire.send_message sch s msg).1 = Except.ok () ∧
    (VshWire.send_message sch s msg).2.output
      = s.output ++ u32ToLeBytes bs.length ++ bs ∧
    (u32ToLeBytes bs.length).length = 4 := by
  have hsend := send_message_ok_eq sch s msg bs hw hlen
  rw [hsend]
  exact ⟨rfl, rfl, rfl⟩

theorem C4_send_wire_format_witness :
    (VshWire.send_message listSchema (VshWire.new []) [7, 8]).1 = Except.ok () ∧
    (VshWire.send_message listSchema (VshWire.new []) [7, 8]).2.output
      = (VshWire.new []).output ++ u32ToLeBytes [7, 8].length ++ [7, 8] ∧
    (u32ToLeBytes [7, 8].length).length = 4 :=
  C4_send_wire_format listSchema (VshWire.new []) [7, 8] [7, 8] rfl (by decide)

/-- C2: `receive_message` fails with the invalid-frame-size protocol error
exactly when the 4-byte little-endian header decodes to a length above 4096;
in that case exactly the 4 header bytes are consumed and nothing else changes;
a header of exactly 4096 with the payload available is accepted. -/
theorem C2_invalid_frame_iff {E M : Type} (sch : Schema E M) (s : WireState) (msg : M) :
    ((VshWire.receive_message sch s msg).1
        = Except.error (VshWireError.ReceiveMessage invalidFrameSizeError)
      ↔ 4 ≤ s.input.length ∧ VSH_BUF_SIZE < u32FromLeBytes (s.input.take 4)) ∧
    (4 ≤ s.input.length → VSH_BUF_SIZE < u32FromLeBytes (s.input.take 4) →
      (VshWire.receive_message sch s msg).2 = { s with input := s.input.drop 4 }) ∧
    (u32FromLeBytes (s.input.take 4) = VSH_BUF_SIZE →
      4 + VSH_BUF_SIZE ≤ s.input.length →
      (VshWire.receive_frame s).1 = Except.ok VSH_BUF_SIZE) := by
  have case_invalid : 4 ≤ s.input.length →
      VSH_BUF_SIZE < u32FromLeBytes (s.input.take 4) →
      VshWire.receive_message sch s msg
        = (Except.error (VshWireError.ReceiveMessage invalidFrameSizeError),
           { s with input := s.input.drop 4 }) := by
    intro h4 hL
    simp [VshWire.receive_message, VshWire.receive_frame, readExact, h4, hL]
  have case_short : ¬ 4 ≤ s.input.length →
      (VshWire.receive_message sch s msg).1
        = Except.error (VshWireError.ReceiveMessage unexpectedEofError) := by
    intro h4
    simp [VshWire.receive_message, VshWire.receive_frame, readExact, h4]
  have case_small : ∀ (h4 : 4 ≤ s.input.length)
      (hL : ¬ VSH_BUF_SIZE < u32FromLeBytes (s.input.take 4)),
      (VshWire.receive_message sch s msg).1
        ≠ Except.error (VshWireError.ReceiveMessage invalidFrameSizeError) := by
    intro h4 hL
    simp only [VshWire.receive_message, VshWire.receive_frame, readExact, h4,
               if_true, gt_iff_lt, hL, if_false, ite_true, ite_false,
               List.length_drop]
    by_cases hp : u32FromLeBytes (s.input.take 4) ≤ s.input.length - 4
    · simp only [hp, ite_true]
      split <;> simp [unexpectedEofError, invalidFrameSizeError]
    · simp [hp, unexpectedEofError, invalidFrameSizeError]
  refine ⟨⟨?_, ?_⟩, ?_, ?_⟩
  · intro h
    by_cases h4 : 4 ≤ s.input.length
    · by_cases hL : VSH_BUF_SIZE < u32FromLeBytes (s.input.take 4)
      · exact ⟨h4, hL⟩
      · exact absurd h (case_small h4 hL)
    · rw [case_short h4] at h
      simp [unexpectedEofError, invalidFrameSizeError] at h
  · rintro ⟨h4, hL⟩
    rw [case_invalid h4 hL]
  · intro h4 hL
    rw [case_invalid h4 hL]
  · intro hEq hAvail
    have h4 : 4 ≤ s.input.length := by
      unfold VSH_BUF_SIZE at hAvail; omega
    have hL : ¬ VSH_BUF_SIZE < u32FromLeBytes (s.input.take 4) := by
      rw [hEq]; exact lt_irrefl VSH_BUF_SIZE
    have hp : VSH_BUF_SIZE ≤ s.input.length - 4 := by
      unfold VSH_BUF_SIZE at hAvail ⊢; omega
    simp [VshWire.receive_frame, readExact, h4, hL, hp, hEq]

theorem C2_invalid_frame_iff_witness :
    (VshWire.receive_message listSchema (VshWire.new [255, 255, 255, 255]) []).1
      = Except.error (VshWireError.ReceiveMessage invalidFrameSizeError) ∧
    (VshWire.receive_message listSchema (VshWire.new [255, 255, 255, 255]) []).2
      = { VshWire.new [255, 255, 255, 255] with
          input := (VshWire.new [255, 255, 255, 255]).input.drop 4 } :=
  ⟨((C2_invalid_frame_iff listSchema (VshWire.new [255, 255, 255, 255]) []).1).mpr
     ⟨by decide, by decide⟩,
   (C2_invalid_frame_iff listSchema (VshWire.new [255, 255, 255, 255]) []).2.1
     (by decide) (by decide)⟩

/-- C5: a poll attempt on a Unix or VSOCK stream adapter returns ready with
the byte count when the non-blocking syscall succeeds; on would-block it
registers a waker and suspends, or returns ready with the generic waker error
when registration fails; on any other I/O error it returns ready with that
error and registers nothing. -/
theorem C5_poll_attempt_cases :
    (∀ (u : UnixStream) (regRes : Except Unit Unit) (n : Nat),
       UnixStream.poll_read u (Except.ok n) regRes = (⟨.Ready (.ok n), false⟩, u)) ∧
    (∀ (u : UnixStream) (e : IoError), e.kind = IoErrorKind.wouldBlock →
       UnixStream.poll_read u (Except.error e) (Except.ok ()) = (⟨.Pending, true⟩, u)) ∧
    (∀ (u : UnixStream) (e : IoError), e.kind = IoErrorKind.wouldBlock →
       UnixStream.poll_read u (Except.error e) (Except.error ())
         = (⟨.Ready (.error readWakerError), false⟩, u)) ∧
    (∀ (u : UnixStream) (e : IoError) (regRes : Except Unit Unit),
       e.kind ≠ IoErrorKind.wouldBlock →
       UnixStream.poll_read u (Except.error e) regRes
         = (⟨.Ready (.error e), false⟩, u)) ∧
    (∀ (u : UnixStream) (regRes : Except Unit Unit) (n : Nat),
       UnixStream.poll_write u (Except.ok n) regRes = (⟨.Ready (.ok n), false⟩, u)) ∧
    (∀ (u : UnixStream) (e : IoError), e.kind = IoErrorKind.wouldBlock →
       UnixStream.poll_write u (Except.error e) (Except.ok ()) = (⟨.Pending, true⟩, u)) ∧
    (∀ (u : UnixStream) (e : IoError), e.kind = IoErrorKind.wouldBlock →
       UnixStream.poll_write u (Except.error e) (Except.error ())
         = (⟨.Ready (.error writeWakerError), false⟩, u)) ∧
    (∀ (u : UnixStream) (e : IoError) (regRes : Except Unit Unit),
       e.kind ≠ IoErrorKind.wouldBlock →
       UnixStream.poll_write u (Except.error e) regRes
         = (⟨.Ready (.error e), false⟩, u)) ∧
    (∀ (v : VsockStream) (regRes : Except Unit Unit) (n : Nat),
       VsockStream.poll_read v (Except.ok n) regRes = (⟨.Ready (.ok n), false⟩, v)) ∧
    (∀ (v : VsockStream) (e : IoError), e.kind = IoErrorKind.wouldBlock →
       VsockStream.poll_read v (Except.error e) (Except.ok ()) = (⟨.Pending, true⟩, v)) ∧
    (∀ (v : VsockStream) (e : IoError), e.kind = IoErrorKind.wouldBlock →
       VsockStream.poll_read v (Except.error e) (Except.error ())
         = (⟨.Ready (.error readWakerError), false⟩, v)) ∧
    (∀ (v : VsockStream) (e : IoError) (regRes : Except Unit Unit),
       e.kind ≠ IoErrorKind.wouldBlock →
       VsockStream.poll_read v (Except.error e) regRes
         = (⟨.Ready (.error e), false⟩, v)) ∧
    (∀ (v : VsockStream) (regRes : Except Unit Unit) (n : Nat),
       VsockStream.poll_write v (Except.ok n) regRes = (⟨.Ready (.ok n), false⟩, v)) ∧
    (∀ (v : VsockStream) (e : IoError), e.kind = IoErrorKind.wouldBlock →
       VsockStream.poll_write v (Except.error e) (Except.ok ()) = (⟨.Pending, true⟩, v)) ∧
    (∀ (v : VsockStream) (e : IoError), e.kind = IoErrorKind.wouldBlock →
       VsockStream.poll_write v (Except.error e) (Except.error ())
         = (⟨.Ready (.error writeWakerError), false⟩, v)) ∧
    (∀ (v : VsockStream) (e : IoError) (regRes : Except Unit Unit),
       e.kind ≠ IoErrorKind.wouldBlock →
       VsockStream.poll_write v (Except.error e) regRes
         = (⟨.Ready (.error e), false⟩, v)) := by
  refine ⟨?_, ?_, ?_, ?_, ?_, ?_, ?_, ?_, ?_, ?_, ?_, ?_, ?_, ?_, ?_, ?_⟩ <;>
    intros <;>
    simp_all [UnixStream.poll_read, UnixStream.poll_write,
              VsockStream.poll_read, VsockStream.poll_write]

theorem C5_poll_attempt_cases_witness :
    UnixStream.poll_read ⟨⟨true, true⟩⟩
        (Except.error ⟨IoErrorKind.wouldBlock, "would block"⟩) (Except.ok ())
      = (⟨.Pending, true⟩, ⟨⟨true, true⟩⟩) ∧
    VsockStream.poll_write ⟨⟨true, true⟩⟩
        (Except.error ⟨IoErrorKind.other, "broken pipe"⟩) (Except.ok ())
      = (⟨.Ready (.error ⟨IoErrorKind.other, "broken pipe"⟩), false⟩, ⟨⟨true, true⟩⟩) :=
  ⟨C5_poll_attempt_cases.2.1 ⟨⟨true, true⟩⟩ ⟨IoErrorKind.wouldBlock, "would block"⟩ rfl,
   C5_poll_attempt_cases.2.2.2.2.2.2.2.2.2.2.2.2.2.2.2 ⟨⟨true, true⟩⟩
     ⟨IoErrorKind.other, "broken pipe"⟩ (Except.ok ()) (by decide)⟩

/-- C6: flush on either stream adapter is always immediately ready with
success and leaves the adapter (hence its descriptor) untouched, and close
returns exactly what flush returns. -/
theorem C6_flush_close (u : UnixStream) (v : VsockStream) :
    UnixStream.poll_flush u = (.Ready (.ok ()), u) ∧
    UnixStream.poll_close u = UnixStream.poll_flush u ∧
    VsockStream.poll_flush v = (.Ready (.ok ()), v) ∧
    VsockStream.poll_close v = VsockStream.poll_flush v :=
  ⟨rfl, rfl, rfl, rfl⟩

/-- C7: constructing a stream adapter from a raw connected socket sets
non-blocking mode; a failed mode change yields `SetNonblocking` and no
adapter, a successful one yields an adapter wrapping the socket with
non-blocking mode enabled. -/
theorem C7_construct_nonblocking :
    (∀ (raw : RawUnixStream),
       UnixStream.try_from raw (Except.ok ())
         = Except.ok ⟨{ raw with nonblocking := true }⟩) ∧
    (∀ (raw : RawUnixStream) (e : IoError),
       UnixStream.try_from raw (Except.error e)
         = Except.error (.SetNonblocking e)) ∧
    (∀ (raw : RawVsockStream),
       VsockStream.try_from raw (Except.ok ())
         = Except.ok ⟨{ raw with nonblocking := true }⟩) ∧
    (∀ (raw : RawVsockStream) (e : IoError),
       VsockStream.try_from raw (Except.error e)
         = Except.error (.SetNonblocking e)) :=
  ⟨fun _ => rfl, fun _ _ => rfl, fun _ => rfl, fun _ _ => rfl⟩

theorem receive_frame_async_sync (input out : List Nat) (rx tx : RVec) :
    (VshAsyncRead.receive_frame ⟨input, rx⟩).1
      = (VshWire.receive_frame ⟨input, out, rx, tx⟩).1 ∧
    (VshAsyncRead.receive_frame ⟨input, rx⟩).2.input
      = (VshWire.receive_frame ⟨input, out, rx, tx⟩).2.input ∧
    (VshAsyncRead.receive_frame ⟨input, rx⟩).2.rx_buf
      = (VshWire.receive_frame ⟨input, out, rx, tx⟩).2.rx_buf := by
  by_cases h4 : 4 ≤ input.length
  · by_cases hL : VSH_BUF_SIZE < u32FromLeBytes (input.take 4)
    · simp [VshAsyncRead.receive_frame, readExactAsync,
            VshWire.receive_frame, readExact, h4, hL]
    · by_cases hp : u32FromLeBytes (input.take 4) ≤ input.length - 4
      · simp [VshAsyncRead.receive_frame, readExactAsync,
              VshWire.receive_frame, readExact, h4, hL, hp]
      · simp [VshAsyncRead.receive_frame, readExactAsync,
              VshWire.receive_frame, readExact, h4, hL, hp]
  · simp [VshAsyncRead.receive_frame, readExactAsync,
          VshWire.receive_frame, readExact, h4]

theorem receive_message_async_sync {E M : Type} (sch : Schema E M)
    (input out : List Nat) (rx tx : RVec) (msg : M) :
    (VshAsyncRead.receive_message sch ⟨input, rx⟩ msg).1
      = (VshWire.receive_message sch ⟨input, out, rx, tx⟩ msg).1 ∧
    (VshAsyncRead.receive_message sch ⟨input, rx⟩ msg).2.input
      = (VshWire.receive_message sch ⟨input, out, rx, tx⟩ msg).2.input ∧
    (VshAsyncRead.receive_message sch ⟨input, rx⟩ msg).2.rx_buf
      = (VshWire.receive_message sch ⟨input, out, rx, tx⟩ msg).2.rx_buf := by
  obtain ⟨h1, h2, h3⟩ := receive_frame_async_sync input out rx tx
  unfold VshAsyncRead.receive_message VshWire.receive_message
  rcases ha : VshAsyncRead.receive_frame ⟨input, rx⟩ with ⟨ra, sa⟩
  rcases hfw : VshWire.receive_frame ⟨input, out, rx, tx⟩ with ⟨rs, sw⟩
  rw [ha, hfw] at h1 h2 h3
  simp at h1 h2 h3
  try subst h1
  cases ra with
  | error e => simp [h2, h3]
  | ok L =>
    have h3t : List.take L sa.rx_buf.data = List.take L sw.rx_buf.data := by rw [h3]
    rcases hm : sch.mergeFromBytes msg (List.take L sw.rx_buf.data) with e2 | m <;>
      simp [h3t, hm, h2, h3]

theorem send_message_async_sync {E M : Type} (sch : Schema E M)
    (out input : List Nat) (txA txS rx : RVec) (msg : M) :
    (VshAsyncWrite.send_message sch ⟨out, txA⟩ msg).1
      = (VshWire.send_message sch ⟨input, out, rx, txS⟩ msg).1 ∧
    (VshAsyncWrite.send_message sch ⟨out, txA⟩ msg).2.output
      = (VshWire.send_message sch ⟨input, out, rx, txS⟩ msg).2.output := by
  rcases hw : sch.writeBytes msg with e | bs
  · simp [VshAsyncWrite.send_message, VshWire.send_message, hw, RVec.truncate0,
          RVec.appendBytes, VshAsyncWrite.send_frame, VshWire.send_frame,
          writeAll, writeAllAsync]
  · simp only [VshAsyncWrite.send_message, VshWire.send_message, hw, RVec.truncate0,
               RVec.appendBytes, VshAsyncWrite.send_frame, VshWire.send_frame,
               writeAll, writeAllAsync, List.nil_append, List.length_nil, Nat.zero_add,
               gt_iff_lt]
    split_ifs <;> simp

/-- C8: the asynchronous split framer applies framing rules identical to the
synchronous framer: over the same delivered byte sequence the read half
produces the same result and consumes the same bytes as the synchronous
receive, and the write half emits the same byte sequence with the same error
outcome as the synchronous send, for any buffer contents of either framer. -/
theorem C8_async_framing_equiv :
    (∀ (E M : Type) (sch : Schema E M) (input out : List Nat) (rx tx : RVec) (msg : M),
       (VshAsyncRead.receive_message sch ⟨input, rx⟩ msg).1
         = (VshWire.receive_message sch ⟨input, out, rx, tx⟩ msg).1 ∧
       (VshAsyncRead.receive_message sch ⟨input, rx⟩ msg).2.input
         = (VshWire.receive_message sch ⟨input, out, rx, tx⟩ msg).2.input ∧
       (VshAsyncRead.receive_message sch ⟨input, rx⟩ msg).2.rx_buf
         = (VshWire.receive_message sch ⟨input, out, rx, tx⟩ msg).2.rx_buf) ∧
    (∀ (E M : Type) (sch : Schema E M) (out input : List Nat) (txA txS rx : RVec)
       (msg : M),
       (VshAsyncWrite.send_message sch ⟨out, txA⟩ msg).1
         = (VshWire.send_message sch ⟨input, out, rx, txS⟩ msg).1 ∧
       (VshAsyncWrite.send_message sch ⟨out, txA⟩ msg).2.output
         = (VshWire.send_message sch ⟨input, out, rx, txS⟩ msg).2.output) :=
  ⟨fun _ _ sch input out rx tx msg =>
     receive_message_async_sync sch input out rx tx msg,
   fun _ _ sch out input txA txS rx msg =>
     send_message_async_sync sch out input txA txS rx msg⟩

theorem receive_message_rx_buf {E M : Type} (sch : Schema E M) (s : WireState) (msg : M) :
    (VshWire.receive_message sch s msg).2.rx_buf = (VshWire.receive_frame s).2.rx_buf := by
  unfold VshWire.receive_message
  rcases hf : VshWire.receive_frame s with ⟨r, s1⟩
  cases r with
  | error e => simp
  | ok L =>
    rcases hm : sch.mergeFromBytes msg (List.take L s1.rx_buf.data) with e | m <;>
      simp [hm]

theorem receive_frame_rx_len (s : WireState) (h : s.rx_buf.data.length = VSH_BUF_SIZE) :
    (VshWire.receive_frame s).2.rx_buf.data.length = VSH_BUF_SIZE ∧
    (VshWire.receive_frame s).2.rx_buf.cap = s.rx_buf.cap := by
  by_cases h4 : 4 ≤ s.input.length
  · by_cases hL : VSH_BUF_SIZE < u32FromLeBytes (s.input.take 4)
    · simp [VshWire.receive_frame, readExact, h4, hL, h]
    · by_cases hp : u32FromLeBytes (s.input.take 4) ≤ s.input.length - 4
      · simp only [VshWire.receive_frame, readExact, h4, if_true, ite_true, gt_iff_lt,
                   hL, if_false, ite_false, List.length_drop, hp]
        constructor
        · simp [List.length_append, List.length_take, List.length_drop, h]
          omega
        · trivial
      · simp [VshWire.receive_frame, readExact, h4, hL, hp, h]
  · simp [VshWire.receive_frame, readExact, h4, h]

/-- C9: the receive buffer keeps length 4096 (and its capacity) across every
`receive_message`; the transmit buffer is emptied before each serialization so
the bytes a `send_message` writes depend only on the current message, and for
a message within the bound the transmit buffer ends the call holding exactly
the serialized bytes with its capacity still 4096. -/
theorem C9_buffer_invariants :
    (∀ (E M : Type) (sch : Schema E M) (s : WireState) (msg : M),
       s.rx_buf.data.length = VSH_BUF_SIZE →
       (VshWire.receive_message sch s msg).2.rx_buf.data.length = VSH_BUF_SIZE ∧
       (VshWire.receive_message sch s msg).2.rx_buf.cap = s.rx_buf.cap) ∧
    (∀ (E M : Type) (sch : Schema E M) (s t : WireState) (msg : M),
       (VshWire.send_message sch s msg).2.output.drop s.output.length
         = (VshWire.send_message sch t msg).2.output.drop t.output.length) ∧
    (∀ (E M : Type) (sch : Schema E M) (s : WireState) (msg : M) (bs : List Nat),
       sch.writeBytes msg = Except.ok bs → bs.length ≤ VSH_BUF_SIZE →
       s.tx_buf.cap = VSH_BUF_SIZE →
       (VshWire.send_message sch s msg).2.tx_buf.cap = VSH_BUF_SIZE ∧
       (VshWire.send_message sch s msg).2.tx_buf.data = bs) := by
  refine ⟨?_, ?_, ?_⟩
  · intro E M sch s msg hlen
    rw [receive_message_rx_buf]
    exact receive_frame_rx_len s hlen
  · intro E M sch s t msg
    rcases hw : sch.writeBytes msg with e | bs
    · simp [VshWire.send_message, hw, RVec.truncate0, List.drop_length]
    · by_cases hbig : VSH_BUF_SIZE < bs.length
      · simp [VshWire.send_message, hw, RVec.truncate0, RVec.appendBytes, hbig,
              List.drop_length]
      · have hlenb : bs.length ≤ VSH_BUF_SIZE := by omega
        rw [send_message_ok_eq sch s msg bs hw hlenb,
            send_message_ok_eq sch t msg bs hw hlenb]
        simp [List.append_assoc, List.drop_left]
  · intro E M sch s msg bs hw hlenb hcap
    rw [send_message_ok_eq sch s msg bs hw hlenb]
    exact ⟨by simp [hcap, hlenb], rfl⟩

theorem C9_buffer_invariants_witness :
    ((VshWire.receive_message listSchema (VshWire.new []) []).2.rx_buf.data.length
       = VSH_BUF_SIZE ∧
     (VshWire.receive_message listSchema (VshWire.new []) []).2.rx_buf.cap
       = (VshWire.new []).rx_buf.cap) ∧
    ((VshWire.send_message listSchema (VshWire.new []) [3]).2.tx_buf.cap
       = VSH_BUF_SIZE ∧
     (VshWire.send_message listSchema (VshWire.new []) [3]).2.tx_buf.data = [3]) :=
  ⟨C9_buffer_invariants.1 Unit (List Nat) listSchema (VshWire.new []) []
     (by simp [VshWire.new]),
   C9_buffer_invariants.2.2 Unit (List Nat) listSchema (VshWire.new []) [3] [3] rfl
     (by decide) rfl⟩

/-- A two-field instance of the external schema collaborator mirroring
protobuf semantics: each field is optional, the wire encoding lists the set
fields as tag-value byte pairs, and parsing merges into the prior message,
overwriting exactly the fields present in the payload. -/
structure PbMsg where
  field1 : Option Nat
  field2 : Option Nat
deriving Repr, DecidableEq

/-- Serialization for `PbMsg`: tag byte 1 or 2 followed by the value byte. -/
def pbEncode (m : PbMsg) : List Nat :=
  (match m.field1 with
   | some v => [1, v % 256]
   | none => []) ++
  (match m.field2 with
   | some v => [2, v % 256]
   | none => [])

/-- Protobuf-style field merge for `PbMsg`: fields present in the bytes
overwrite, fields absent keep their prior value. -/
def pbMergeBytes : PbMsg → List Nat → Except Unit PbMsg
  | m, [] => Except.ok m
  | m, 1 :: v :: rest => pbMergeBytes { m with field1 := some v } rest
  | m, 2 :: v :: rest => pbMergeBytes { m with field2 := some v } rest
  | _, _ => Except.error ()

/-- The `Schema` instance for `PbMsg`. -/
def pbSchema : Schema Unit PbMsg :=
  ⟨fun m => Except.ok (pbEncode m), pbMergeBytes⟩

/-- C10: `receive_message` merges the payload into the caller-supplied output
message rather than replacing it: the parsed result is the schema merge of
the prior message with the received bytes, so with a field-merge schema a
field absent from the payload keeps the prior message value and receiving
into a non-fresh message can differ from the message sent. -/
theorem C10_receive_merges :
    (∀ (E M : Type) (sch : Schema E M) (s : WireState) (msg : M) (L : Nat),
       (VshWire.receive_frame s).1 = Except.ok L →
       (VshWire.receive_message sch s msg).1
         = Except.mapError VshWireError.DeserializeProto
             (sch.mergeFromBytes msg
               ((VshWire.receive_frame s).2.rx_buf.data.take L))) ∧
    (∀ prior : PbMsg,
       (VshWire.receive_message pbSchema
          (VshWire.new
            (VshWire.send_message pbSchema (VshWire.new []) ⟨some 5, none⟩).2.output)
          prior).1
         = Except.ok ⟨some 5, prior.field2⟩) ∧
    ((VshWire.receive_message pbSchema
        (VshWire.new
          (VshWire.send_message pbSchema (VshWire.new []) ⟨some 5, none⟩).2.output)
        ⟨none, some 7⟩).1 = Except.ok ⟨some 5, some 7⟩ ∧
     (⟨some 5, some 7⟩ : PbMsg) ≠ ⟨some 5, none⟩) := by
  refine ⟨?_, ?_, ?_, ?_⟩
  · intro E M sch s msg L h
    unfold VshWire.receive_message
    rcases hf : VshWire.receive_frame s with ⟨r, s1⟩
    rw [hf] at h
    simp at h
    try subst h
    rcases hm : sch.mergeFromBytes msg (List.take L s1.rx_buf.data) with e | m <;>
      simp [hm, Except.mapError]
  · intro prior
    rfl
  · rfl
  · decide

theorem C10_receive_merges_witness :
    (VshWire.receive_message listSchema (VshWire.new [2, 0, 0, 0, 9, 9]) [4]).1
      = Except.mapError VshWireError.DeserializeProto
          (listSchema.mergeFromBytes [4]
            ((VshWire.receive_frame (VshWire.new [2, 0, 0, 0, 9, 9])).2.rx_buf.data.take 2)) :=
  C10_receive_merges.1 Unit (List Nat) listSchema (VshWire.new [2, 0, 0, 0, 9, 9]) [4] 2 rfl
